import Mathlib

/-!
Verification of the charging-station lease core of the xianfire repository.

The JavaScript source is embedded shallowly:
* `TransactionModel.createTransaction`, `completeTransaction`,
  `getActiveTransaction` (src/models/transactionModel.js) become pure
  functions over an explicit `DB` state;
* `startChargingSession`, `stopChargingSession`
  (src/controllers/firebaseController.js) become the controller-level
  operations;
* `turnOnSocket`, `turnOffSocket` and the SIGINT cleanup handler
  (src/unnamed/part_003, the mock-aware gpioControl variant) become pure
  functions over a `RelayState`.

Timestamps are integers (seconds).  Firestore documents become Lean
structures; the `students` collection is a map from RFID to an optional
student record, the `transactions` collection a list of id-record pairs
with ids handed out by a counter.  JavaScript `x || 0` on a possibly
missing numeric field is `pointsOrZero` on an `Option Int`.
-/

/-- Transaction status: "in-progress", "completed" or "cancelled". -/
inductive TxStatus where
  | inProgress
  | completed
  | cancelled
deriving DecidableEq

/-- A document of the `students` collection (the fields the lease core
reads and writes; `points` is `none` when the field is absent or null). -/
structure Student where
  name : String
  email : String
  points : Option Int
  lastUsed : Option Int
deriving DecidableEq

/-- A document of the `transactions` collection, as written by
`createTransaction` and updated by `completeTransaction`. -/
structure Txn where
  rfid : String
  studentName : String
  email : String
  pointsUsed : Int
  socketType : String
  socketNumber : Int
  startTime : Int
  expectedEndTime : Option Int
  actualEndTime : Option Int
  status : TxStatus
  remainingPoints : Int
  duration : Option Int
  pointsRefunded : Option Int
  actualPointsUsed : Option Int
  createdAt : Int
  updatedAt : Int
deriving DecidableEq

abbrev TxnId := Nat

/-- The Firestore state the lease core touches: the `students` and
`transactions` collections.  Document ids for transactions are assigned
from the `nextId` counter. -/
structure DB where
  students : String → Option Student
  transactions : List (TxnId × Txn)
  nextId : TxnId

/-- JavaScript `studentData.points || 0`: a missing/null `points` field
reads as balance 0. -/
def pointsOrZero : Option Int → Int
  | none => 0
  | some v => v

/-- JavaScript `Math.ceil(a / 120)` for an integer `a`: with Euclidean
division, `(a + 119) / 120` is the ceiling of `a / 120` for every `a`. -/
def ceilDiv120 (a : Int) : Int := (a + 119) / 120

/-- The refund computation of `completeTransaction`
(src/models/transactionModel.js lines 114-118):
`expectedDuration = pointsUsed * 120`, `usedDuration = min(duration,
expectedDuration)`, `usedPoints = ceil(usedDuration / 120)`,
`refund = pointsUsed - usedPoints`. -/
def refundPoints (pointsUsed durationSeconds : Int) : Int :=
  let expectedDuration := pointsUsed * 120
  let usedDuration := min durationSeconds expectedDuration
  let usedPoints := ceilDiv120 usedDuration
  pointsUsed - usedPoints

/-- Predicate of the Firestore query in `getActiveTransaction`:
`rfid == rfid` and `status == "in-progress"`. -/
def isActiveFor (rfid : String) (it : TxnId × Txn) : Bool :=
  it.2.rfid == rfid && it.2.status == TxStatus.inProgress

/-- `TransactionModel.getActiveTransaction`: query the in-progress
transactions of `rfid`; return `null` when there are none, otherwise the
one with the greatest `createdAt` (first listed wins ties). -/
def getActiveTransaction (db : DB) (rfid : String) : Option (TxnId × Txn) :=
  match db.transactions.filter (isActiveFor rfid) with
  | [] => none
  | x :: xs => some (xs.foldl (fun acc it =>
      if acc.2.createdAt < it.2.createdAt then it else acc) x)

/-- Result of a start request, as surfaced by `startChargingSession`:
the 400 "Missing required fields" response, the 404 "Student not found"
response, the 400 "You already have an active charging session"
response, the 500 for the "Insufficient points" exception, or the
success JSON carrying the new transaction id. -/
inductive StartResult where
  | missingFields
  | studentNotFound
  | activeSessionExists
  | insufficientPoints
  | success (txId : TxnId)
deriving DecidableEq

/-- `TransactionModel.createTransaction`: re-read the student, fail when
missing or when `points || 0 < pointsToSpend`; otherwise write the
transaction record (status "in-progress", `startTime` defaulting to the
current time) and debit the student to `remainingPoints`.  `tNow` is the
value of `Timestamp.now()` during this call. -/
def createTransaction (db : DB) (tNow : Int) (rfid studentName email : String)
    (pointsToSpend : Int) (socketType : String) (socketNumber : Int)
    (startTime : Option Int) (expectedEndTime : Option Int) :
    StartResult × DB :=
  match db.students rfid with
  | none => (.studentNotFound, db)
  | some stu =>
    let currentPoints := pointsOrZero stu.points
    if currentPoints < pointsToSpend then (.insufficientPoints, db)
    else
      let remainingPoints := currentPoints - pointsToSpend
      let txn : Txn :=
        { rfid := rfid
          studentName := studentName
          email := email
          pointsUsed := pointsToSpend
          socketType := socketType
          socketNumber := socketNumber
          startTime := startTime.getD tNow
          expectedEndTime := expectedEndTime
          actualEndTime := none
          status := .inProgress
          remainingPoints := remainingPoints
          duration := none
          pointsRefunded := none
          actualPointsUsed := none
          createdAt := tNow
          updatedAt := tNow }
      let db1 : DB :=
        { students := fun r =>
            if r == rfid then
              some { stu with points := some remainingPoints, lastUsed := some tNow }
            else db.students r
          transactions := db.transactions ++ [(db.nextId, txn)]
          nextId := db.nextId + 1 }
      (.success db.nextId, db1)

/-- `startChargingSession` (src/controllers/firebaseController.js):
reject falsy request fields, 404 on a missing student, reject when an
active transaction exists, then compute `expectedEndTime = tReq +
pointsToSpend * 120` and call `createTransaction`.  `tReq` is the
controller's `Date.now()` clock read; `tCreate` is the later
`Timestamp.now()` read inside `createTransaction`. -/
def startChargingSession (db : DB) (tReq tCreate : Int) (rfid : String)
    (pointsToSpend : Int) (socketType : String) (socketNumber : Int) :
    StartResult × DB :=
  if rfid == "" || pointsToSpend == 0 || socketType == "" || socketNumber == 0 then
    (.missingFields, db)
  else
    match db.students rfid with
    | none => (.studentNotFound, db)
    | some stu =>
      if (getActiveTransaction db rfid).isSome then (.activeSessionExists, db)
      else
        let durationSeconds := pointsToSpend * 120
        createTransaction db tCreate rfid stu.name stu.email pointsToSpend
          socketType socketNumber none (some (tReq + durationSeconds))

/-- Result of a stop request: the 500 for the "Transaction not found"
exception, or the success JSON carrying the merged updated record. -/
inductive StopResult where
  | transactionNotFound
  | success (txId : TxnId) (txn : Txn)
deriving DecidableEq

/-- Look a transaction up by document id (`getDoc` on `transactions`). -/
def findTxn (db : DB) (txId : TxnId) : Option Txn :=
  (db.transactions.find? (fun it => it.1 == txId)).map (fun it => it.2)

/-- Overwrite the document `txId` with `u` (Firestore `updateDoc` after
merging the update object into the read document). -/
def writeTxn (db : DB) (txId : TxnId) (u : Txn) : DB :=
  { db with transactions :=
      db.transactions.map (fun it => if it.1 == txId then (it.1, u) else it) }

/-- `TransactionModel.completeTransaction`: fail when the transaction is
missing; otherwise set `status`, `actualEndTime`, `duration` and
`updatedAt`; when the request is "cancelled" and the prior status was
"in-progress", compute the refund and, when positive and the student
exists, credit the student and record `pointsRefunded`,
`actualPointsUsed`, `remainingPoints` on the transaction.  `now` is
`Timestamp.now()` during this call. -/
def completeTransaction (db : DB) (now : Int) (txId : TxnId)
    (status : TxStatus) : StopResult × DB :=
  match findTxn db txId with
  | none => (.transactionNotFound, db)
  | some txn =>
    let durationSeconds := now - txn.startTime
    let base : Txn :=
      { txn with status := status, actualEndTime := some now,
                 duration := some durationSeconds, updatedAt := now }
    if status == TxStatus.cancelled && txn.status == TxStatus.inProgress then
      let refundPts := refundPoints txn.pointsUsed durationSeconds
      if 0 < refundPts then
        match db.students txn.rfid with
        | some stu =>
          let currentPoints := pointsOrZero stu.points
          let updated : Txn :=
            { base with
                pointsRefunded := some refundPts
                actualPointsUsed :=
                  some (ceilDiv120 (min durationSeconds (txn.pointsUsed * 120)))
                remainingPoints := currentPoints + refundPts }
          let db1 : DB :=
            { writeTxn db txId updated with
                students := fun r =>
                  if r == txn.rfid then
                    some { stu with points := some (currentPoints + refundPts) }
                  else db.students r }
          (.success txId updated, db1)
        | none => (.success txId base, writeTxn db txId base)
      else (.success txId base, writeTxn db txId base)
    else (.success txId base, writeTxn db txId base)

/-- `stopChargingSession` (src/controllers/firebaseController.js): the
requested status string is normalized — "cancelled" stays, anything else
becomes "completed" — and `completeTransaction` runs. -/
def stopChargingSession (db : DB) (now : Int) (txId : TxnId)
    (status : String) : StopResult × DB :=
  let finalStatus := if status == "cancelled" then TxStatus.cancelled
                     else TxStatus.completed
  completeTransaction db now txId finalStatus

/-- An operation of the lease API, executed atomically (one request
runs to completion before the next starts). -/
inductive Op where
  | start (tReq tCreate : Int) (rfid : String) (pointsToSpend : Int)
      (socketType : String) (socketNumber : Int)
  | stop (now : Int) (txId : TxnId) (status : String)

/-- State reached after one operation. -/
def applyOp (db : DB) : Op → DB
  | .start tReq tCreate rfid p socketType socketNumber =>
      (startChargingSession db tReq tCreate rfid p socketType socketNumber).2
  | .stop now txId status => (stopChargingSession db now txId status).2

/-- State reached after a sequence of operations. -/
def runOps (db : DB) : List Op → DB
  | [] => db
  | op :: rest => runOps (applyOp db op) rest

/-- Number of in-progress transactions of one holder. -/
def countInProgress (db : DB) (rfid : String) : Nat :=
  (db.transactions.filter (isActiveFor rfid)).length

/-- The one-active-lease-per-holder invariant. -/
def oneActiveInv (db : DB) : Prop :=
  ∀ r : String, countInProgress db r ≤ 1

/-- A GPIO output handle (src/unnamed/part_003): the pin it was opened
on and the last value written with `writeSync`. -/
structure GpioPin where
  pin : Int
  value : Int
deriving DecidableEq

/-- The `lineMap` of src/unnamed/part_003: socket 1 drives GPIO 73,
socket 2 drives GPIO 70; everything else is invalid. -/
def lineMap (socketNumber : Int) : Option Int :=
  if socketNumber == 1 then some 73
  else if socketNumber == 2 then some 70
  else none

/-- The module-level `gpioInstances` registry: one lazily created handle
per socket number. -/
structure RelayState where
  instances : Int → Option GpioPin

/-- `turnOnSocket` (src/unnamed/part_003): throw (`none`) on an invalid
socket number; otherwise reuse or lazily create the handle for the
socket and `writeSync(1)` on it. -/
def turnOnSocket (s : RelayState) (socketNumber : Int) : Option RelayState :=
  match lineMap socketNumber with
  | none => none
  | some gpioNumber =>
    let inst := (s.instances socketNumber).getD { pin := gpioNumber, value := 0 }
    some { instances := fun m =>
      if m == socketNumber then some { inst with value := 1 }
      else s.instances m }

/-- `turnOffSocket` (src/unnamed/part_003): throw (`none`) on an invalid
socket number; otherwise reuse or lazily create the handle for the
socket and `writeSync(0)` on it. -/
def turnOffSocket (s : RelayState) (socketNumber : Int) : Option RelayState :=
  match lineMap socketNumber with
  | none => none
  | some gpioNumber =>
    let inst := (s.instances socketNumber).getD { pin := gpioNumber, value := 0 }
    some { instances := fun m =>
      if m == socketNumber then some { inst with value := 0 }
      else s.instances m }

/-- The SIGINT cleanup handler of src/unnamed/part_003: every handle in
`gpioInstances` gets `writeSync(0)` before the process exits. -/
def sigintCleanup (s : RelayState) : RelayState :=
  { instances := fun m => (s.instances m).map (fun g => { g with value := 0 }) }

/-- Modelled from the spec: the files under src wire no relay call into
`stopChargingSession` (the hardware-invoking caller of `turnOffSocket`
is not among the provided sources); the spec's stop flow ends with
"RelayController de-energizes the socket".  This composition runs the
stop endpoint and, on success, `turnOffSocket` on the stopped session's
socket number as the final step (an invalid socket number leaves the
relay state untouched, as the thrown error only aborts the response). -/
def stopLeaseFlow (db : DB) (relay : RelayState) (now : Int) (txId : TxnId)
    (status : String) : StopResult × DB × RelayState :=
  match stopChargingSession db now txId status with
  | (.success id txn, db1) =>
      (.success id txn, db1, (turnOffSocket relay txn.socketNumber).getD relay)
  | (r, db1) => (r, db1, relay)

/-- The empty store. -/
def dbEmpty : DB :=
  { students := fun _ => none, transactions := [], nextId := 0 }

/-- A concrete store: one student "A" with 100 points and no
transactions. -/
def dbOneStudent : DB :=
  { students := fun r =>
      if r == "A" then
        some { name := "Alice", email := "a@x.test", points := some 100,
               lastUsed := none }
      else none
    transactions := []
    nextId := 0 }

/-- A finalized 5-point transaction of student "A" (status
"completed"). -/
def txnCompleted : Txn :=
  { rfid := "A", studentName := "Alice", email := "a@x.test",
    pointsUsed := 5, socketType := "Universal Charger", socketNumber := 1,
    startTime := 0, expectedEndTime := some 600, actualEndTime := some 100,
    status := TxStatus.completed, remainingPoints := 95,
    duration := some 100, pointsRefunded := none, actualPointsUsed := none,
    createdAt := 0, updatedAt := 100 }

/-- A store holding only the finalized transaction `txnCompleted`. -/
def dbTerminalTxn : DB :=
  { students := fun r =>
      if r == "A" then
        some { name := "Alice", email := "a@x.test", points := some 95,
               lastUsed := some 0 }
      else none
    transactions := [(0, txnCompleted)]
    nextId := 1 }

/-- The in-progress record created by a 1-point start on `dbOneStudent`
with request-time clock 0 and creation-time clock 1. -/
def txnClockSkew : Txn :=
  { rfid := "A", studentName := "Alice", email := "a@x.test",
    pointsUsed := 1, socketType := "Universal Charger", socketNumber := 1,
    startTime := 1, expectedEndTime := some 120, actualEndTime := none,
    status := TxStatus.inProgress, remainingPoints := 99, duration := none,
    pointsRefunded := none, actualPointsUsed := none, createdAt := 1,
    updatedAt := 1 }

/-- First interleaved commit of the C2 race: student "A" spends 5
points; this is `createTransaction` exactly as invoked by the controller
after its own checks passed (`expectedEndTime = 0 + 5 * 120`). -/
def c2Step1 : StartResult × DB :=
  createTransaction dbOneStudent 0 "A" "Alice" "a@x.test" 5
    "Universal Charger" 1 none (some 600)

/-- Second interleaved commit of the C2 race, running after the first
commit although its active-session check ran against the initial
store. -/
def c2Step2 : StartResult × DB :=
  createTransaction c2Step1.2 0 "A" "Alice" "a@x.test" 5
    "Universal Charger" 1 none (some 600)

/-- A store with one student "B" whose document has no `points` field,
holding one in-progress 5-point transaction. -/
def dbNoPoints : DB :=
  { students := fun r =>
      if r == "B" then
        some { name := "Bob", email := "b@x.test", points := none,
               lastUsed := none }
      else none
    transactions :=
      [(0, { rfid := "B", studentName := "Bob", email := "b@x.test",
             pointsUsed := 5, socketType := "Universal Charger",
             socketNumber := 2, startTime := 0, expectedEndTime := some 600,
             actualEndTime := none, status := TxStatus.inProgress,
             remainingPoints := 0, duration := none, pointsRefunded := none,
             actualPointsUsed := none, createdAt := 0, updatedAt := 0 })]
    nextId := 1 }

/-- A relay state with socket 1 energized and no other handles. -/
def relayOneOn : RelayState :=
  { instances := fun m =>
      if m == 1 then some { pin := 73, value := 1 } else none }

/-- The record produced by re-stopping `txnCompleted` at time 200. -/
def txnStopped : Txn :=
  { txnCompleted with
      actualEndTime := some 200
      duration := some 200
      updatedAt := 200 }

/-- `ceilDiv120` is the genuine ceiling of `a / 120` over the rationals:
the integer-arithmetic `(a + 119) / 120` of the code matches the spec's
`ceil(a / 120)` exactly. -/
lemma ceilDiv120_eq_ceil (a : Int) : ceilDiv120 a = ⌈((a : ℚ)) / 120⌉ := by
  unfold ceilDiv120
  symm
  rw [Int.ceil_eq_iff]
  have h1 : 120 * ((a + 119) / 120 - 1) < a := by omega
  have h2 : a ≤ 120 * ((a + 119) / 120) := by omega
  have h1q : (120 : ℚ) * ((((a + 119) / 120 : ℤ) : ℚ) - 1) < (a : ℚ) := by
    exact_mod_cast h1
  have h2q : (a : ℚ) ≤ 120 * (((a + 119) / 120 : ℤ) : ℚ) := by
    exact_mod_cast h2
  constructor
  · rw [lt_div_iff₀ (by norm_num : (0:ℚ) < 120)]
    linarith
  · rw [div_le_iff₀ (by norm_num : (0:ℚ) < 120)]
    linarith

/-- `refundPoints` with the lets flattened. -/
lemma refundPoints_def (p e : Int) :
    refundPoints p e = p - (min e (p * 120) + 119) / 120 := rfl

/-- Claim C1: for every cancellation of an in-progress lease with
`pointsReserved = p > 0` and elapsed seconds `e ≥ 0`, the refund
computed and credited equals `p - ceil(min(e, p*120)/120)` (exact
ceiling arithmetic), is never negative, is `p` at `e = 0`, and is `0`
for `e ≥ p*120`; the cancelled student's balance increases by exactly
this refund. -/
theorem C1_refund_correct (p e : Int) (hp : 0 < p) (he : 0 ≤ e) :
    refundPoints p e = p - ⌈((min e (p * 120) : ℤ) : ℚ) / 120⌉ ∧
    0 ≤ refundPoints p e ∧
    refundPoints p 0 = p ∧
    (p * 120 ≤ e → refundPoints p e = 0) ∧
    (∀ (db : DB) (txId : TxnId) (txn : Txn) (stu : Student),
      findTxn db txId = some txn → txn.status = TxStatus.inProgress →
      txn.pointsUsed = p → db.students txn.rfid = some stu →
      ∃ stu1,
        ((completeTransaction db (txn.startTime + e) txId TxStatus.cancelled).2).students
            txn.rfid = some stu1 ∧
        pointsOrZero stu1.points = pointsOrZero stu.points + refundPoints p e) := by
  refine ⟨?_, ?_, ?_, ?_, ?_⟩
  · rw [refundPoints_def, ← ceilDiv120_eq_ceil]
    rfl
  · rw [refundPoints_def]; omega
  · rw [refundPoints_def]; omega
  · intro hle; rw [refundPoints_def]; omega
  · intro db txId txn stu hfind hstatus hpu hstu
    have hdur : txn.startTime + e - txn.startTime = e := by ring
    unfold completeTransaction
    rw [hfind]
    simp only [hstatus, hdur, hpu]
    have hguard : (TxStatus.cancelled == TxStatus.cancelled
        && TxStatus.inProgress == TxStatus.inProgress) = true := by decide
    rw [hguard]
    simp only [if_true]
    by_cases hr : 0 < refundPoints p e
    · rw [if_pos hr, hstu]
      refine ⟨{ stu with points := some (pointsOrZero stu.points + refundPoints p e) },
        ?_, ?_⟩
      · simp
      · simp [pointsOrZero]
    · rw [if_neg hr]
      refine ⟨stu, ?_, ?_⟩
      · simpa [writeTxn] using hstu
      · have hr0 : refundPoints p e = 0 := by
          have := (by rw [refundPoints_def]; omega : 0 ≤ refundPoints p e)
          omega
        rw [hr0]; ring

/-- `getActiveTransaction` answers `none` exactly when the holder has
no in-progress transaction. -/
lemma getActiveTransaction_eq_none (db : DB) (rfid : String) :
    getActiveTransaction db rfid = none ↔
      db.transactions.filter (isActiveFor rfid) = [] := by
  unfold getActiveTransaction
  cases h : db.transactions.filter (isActiveFor rfid) <;> simp

/-- Rewriting entries of a list pointwise cannot increase the number of
entries satisfying `p` when every entry is either kept or rewritten to
one failing `p`. -/
lemma length_filter_map_le {α : Type} (g : α → α) (p : α → Bool) (l : List α)
    (hg : ∀ a, g a = a ∨ p (g a) = false) :
    ((l.map g).filter p).length ≤ (l.filter p).length := by
  induction l with
  | nil => simp
  | cons x xs ih =>
    simp only [List.map_cons, List.filter_cons]
    rcases hg x with hx | hx
    · rw [hx]
      by_cases hpx : p x
      · simp only [hpx, if_true, List.length_cons]
        omega
      · simp only [hpx, if_false, Bool.false_eq_true]
        exact ih
    · rw [hx]
      by_cases hpx : p x
      · simp only [hpx, if_true, Bool.false_eq_true, if_false, List.length_cons]
        omega
      · simp only [hpx, Bool.false_eq_true, if_false]
        exact ih

/-- Overwriting one transaction with a non-in-progress record cannot
increase any holder's in-progress count. -/
lemma countInProgress_writeTxn_le (db : DB) (txId : TxnId) (u : Txn)
    (hu : u.status ≠ TxStatus.inProgress) (r : String) :
    countInProgress (writeTxn db txId u) r ≤ countInProgress db r := by
  unfold countInProgress writeTxn
  apply length_filter_map_le
  intro it
  by_cases h1 : (it.1 == txId) = true
  · right
    simp only [h1, if_true, isActiveFor]
    have : (u.status == TxStatus.inProgress) = false := by
      simpa using hu
    simp [this]
  · left
    simp [h1]

/-- A successful start appends one in-progress record for the holder
and leaves the other records untouched, so it preserves the invariant
given the active-session check it just ran. -/
lemma startChargingSession_preserves (db : DB) (tReq tCreate : Int)
    (rfid : String) (p : Int) (socketType : String) (socketNumber : Int)
    (h : oneActiveInv db) :
    oneActiveInv (startChargingSession db tReq tCreate rfid p socketType
      socketNumber).2 := by
  unfold startChargingSession
  split
  · exact h
  split
  · exact h
  next stu hstu =>
    split
    · exact h
    next hActive =>
      simp only [createTransaction, hstu]
      split
      · exact h
      next hsuff =>
        intro r
        have hzero : countInProgress db rfid = 0 := by
          have hnone : getActiveTransaction db rfid = none := by
            cases hga : getActiveTransaction db rfid with
            | none => rfl
            | some v => rw [hga] at hActive; simp at hActive
          have := (getActiveTransaction_eq_none db rfid).mp hnone
          unfold countInProgress
          rw [this]
          rfl
        unfold countInProgress at hzero ⊢
        simp only [List.filter_append, List.length_append]
        by_cases hr : rfid = r
        · subst hr
          rw [hzero]
          simp [isActiveFor]
        · have hb : (rfid == r) = false := by
            simpa using hr
          have h2 := h r
          unfold countInProgress at h2
          simp only [isActiveFor, hb, List.filter_cons, List.filter_nil]
          simp only [Bool.false_and, Bool.false_eq_true, if_false, List.length_nil]
          omega

/-- A stop rewrites the stopped record to a completed or cancelled one,
so it preserves the invariant. -/
lemma stopChargingSession_preserves (db : DB) (now : Int) (txId : TxnId)
    (status : String) (h : oneActiveInv db) :
    oneActiveInv (stopChargingSession db now txId status).2 := by
  unfold stopChargingSession completeTransaction
  set st := (if status == "cancelled" then TxStatus.cancelled
             else TxStatus.completed) with hstdef
  have hstne : st ≠ TxStatus.inProgress := by
    rw [hstdef]; split <;> intro hc <;> cases hc
  have hbeq : (st == TxStatus.inProgress) = false := by
    simpa using hstne
  split
  · exact h
  next txn hfind =>
    dsimp only
    repeat' split
    all_goals
      intro r
    all_goals
      refine le_trans ?_ (h r)
    all_goals
      dsimp only [countInProgress, writeTxn]
    all_goals
      apply length_filter_map_le
    all_goals
      intro it
      by_cases h1 : (it.1 == txId) = true
      · right
        simp [isActiveFor, h1, hbeq]
      · left
        simp [h1]

/-- Claim C3: for every holder, in every state reachable from a state
satisfying the one-active-lease invariant (in particular from an empty
store) by any sequence of start and stop operations run to completion,
at most one in-progress session exists for that holder. -/
theorem C3_at_most_one_active (ops : List Op) (db : DB)
    (h : oneActiveInv db) : oneActiveInv (runOps db ops) := by
  induction ops generalizing db with
  | nil => exact h
  | cons op rest ih =>
    cases op with
    | start tReq tCreate rfid p socketType socketNumber =>
      exact ih _ (startChargingSession_preserves db tReq tCreate rfid p
        socketType socketNumber h)
    | stop now txId status =>
      exact ih _ (stopChargingSession_preserves db now txId status h)

/-- Witness for C3: the invariant holds after a concrete start-stop
sequence from the empty store. -/
theorem C3_at_most_one_active_witness :
    oneActiveInv (runOps dbEmpty
      [Op.start 0 0 "A" 5 "Universal Charger" 1, Op.stop 700 0 "completed"]) :=
  C3_at_most_one_active _ _ (fun r => by simp [countInProgress, dbEmpty])

/-- Witness for C1 at `p = 10`, `e = 125`: the hypotheses hold and the
refund is `10 - ceil(125/120) = 8`. -/
theorem C1_refund_correct_witness :
    refundPoints 10 125 = 8 ∧
    (refundPoints 10 125 = 10 - ⌈((min 125 (10 * 120) : ℤ) : ℚ) / 120⌉ ∧
      0 ≤ refundPoints 10 125 ∧
      refundPoints 10 0 = 10 ∧
      (10 * 120 ≤ (125 : ℤ) → refundPoints 10 125 = 0) ∧
      (∀ (db : DB) (txId : TxnId) (txn : Txn) (stu : Student),
        findTxn db txId = some txn → txn.status = TxStatus.inProgress →
        txn.pointsUsed = 10 → db.students txn.rfid = some stu →
        ∃ stu1,
          ((completeTransaction db (txn.startTime + 125) txId TxStatus.cancelled).2).students
              txn.rfid = some stu1 ∧
          pointsOrZero stu1.points = pointsOrZero stu.points + refundPoints 10 125)) :=
  ⟨by decide, C1_refund_correct 10 125 (by norm_num) (by norm_num)⟩

/-- Claim C7: for every start request with valid (truthy) fields, the
checks run in the order student-lookup, active-session, balance: the
result is `studentNotFound` iff the account is missing; otherwise
`activeSessionExists` iff an in-progress session exists; otherwise
`insufficientPoints` iff the balance read as `points || 0` is below
`pointsToSpend`; otherwise the start succeeds. -/
theorem C7_start_error_order (db : DB) (tReq tCreate : Int) (rfid : String)
    (p : Int) (socketType : String) (socketNumber : Int)
    (h1 : rfid ≠ "") (h2 : p ≠ 0) (h3 : socketType ≠ "") (h4 : socketNumber ≠ 0) :
    ((startChargingSession db tReq tCreate rfid p socketType socketNumber).1 =
        StartResult.studentNotFound ↔ db.students rfid = none) ∧
    (∀ stu, db.students rfid = some stu →
      ((startChargingSession db tReq tCreate rfid p socketType socketNumber).1 =
          StartResult.activeSessionExists ↔
        getActiveTransaction db rfid ≠ none)) ∧
    (∀ stu, db.students rfid = some stu → getActiveTransaction db rfid = none →
      ((startChargingSession db tReq tCreate rfid p socketType socketNumber).1 =
          StartResult.insufficientPoints ↔ pointsOrZero stu.points < p)) ∧
    (∀ stu, db.students rfid = some stu → getActiveTransaction db rfid = none →
      ¬ pointsOrZero stu.points < p →
      (startChargingSession db tReq tCreate rfid p socketType socketNumber).1 =
        StartResult.success db.nextId) := by
  have hval : (rfid == "" || p == 0 || socketType == "" || socketNumber == 0) = false := by
    simp [h1, h2, h3, h4]
  unfold startChargingSession
  simp only [hval, Bool.false_eq_true, if_false]
  cases hstu : db.students rfid with
  | none =>
    refine ⟨by simp, ?_, ?_, ?_⟩
    · intro stu hs; cases hs
    · intro stu hs; cases hs
    · intro stu hs; cases hs
  | some stu =>
    cases hact : getActiveTransaction db rfid with
    | some v =>
      simp only [Option.isSome_some, if_true]
      refine ⟨by simp, ?_, ?_, ?_⟩
      · intro stu' hs; simp
      · intro stu' hs hnone; cases hnone
      · intro stu' hs hnone; cases hnone
    | none =>
      simp only [Option.isSome_none, Bool.false_eq_true, if_false,
        createTransaction, hstu]
      by_cases hins : pointsOrZero stu.points < p
      · simp only [if_pos hins]
        refine ⟨by simp, ?_, ?_, ?_⟩
        · intro stu' hs; simp
        · intro stu' hs _
          injection hs with hs'
          subst hs'
          simp [hins]
        · intro stu' hs _ hc
          injection hs with hs'
          subst hs'
          exact absurd hins hc
      · simp only [if_neg hins]
        refine ⟨by simp, ?_, ?_, ?_⟩
        · intro stu' hs; simp
        · intro stu' hs _
          injection hs with hs'
          subst hs'
          simp [hins]
        · intro stu' hs _ _
          trivial

/-- Witness for C7 on `dbOneStudent`: the iffs hold for a valid request
of 5 points on socket 1. -/
theorem C7_start_error_order_witness :
    ((startChargingSession dbOneStudent 0 0 "A" 5 "Universal Charger" 1).1 =
        StartResult.studentNotFound ↔ dbOneStudent.students "A" = none) ∧
    (∀ stu, dbOneStudent.students "A" = some stu →
      ((startChargingSession dbOneStudent 0 0 "A" 5 "Universal Charger" 1).1 =
          StartResult.activeSessionExists ↔
        getActiveTransaction dbOneStudent "A" ≠ none)) ∧
    (∀ stu, dbOneStudent.students "A" = some stu →
      getActiveTransaction dbOneStudent "A" = none →
      ((startChargingSession dbOneStudent 0 0 "A" 5 "Universal Charger" 1).1 =
          StartResult.insufficientPoints ↔ pointsOrZero stu.points < 5)) ∧
    (∀ stu, dbOneStudent.students "A" = some stu →
      getActiveTransaction dbOneStudent "A" = none →
      ¬ pointsOrZero stu.points < 5 →
      (startChargingSession dbOneStudent 0 0 "A" 5 "Universal Charger" 1).1 =
        StartResult.success dbOneStudent.nextId) :=
  C7_start_error_order dbOneStudent 0 0 "A" 5 "Universal Charger" 1
    (by decide) (by decide) (by decide) (by decide)

/-- Claim C4 (amended): a stop on an already-terminal session is
accepted, not rejected — it overwrites `status`, `actualEndTime`,
`duration` and `updatedAt` on the stored record — but it never credits
the account again: the refund branch requires the prior status to be
"in-progress", so the `students` collection is untouched. -/
theorem C4_second_stop_accepted_no_double_refund (db : DB) (now : Int)
    (txId : TxnId) (status : String) (txn : Txn)
    (hfind : findTxn db txId = some txn)
    (hterm : txn.status ≠ TxStatus.inProgress) :
    stopChargingSession db now txId status =
      (StopResult.success txId
        { txn with
            status := if status == "cancelled" then TxStatus.cancelled
                      else TxStatus.completed
            actualEndTime := some now
            duration := some (now - txn.startTime)
            updatedAt := now },
       writeTxn db txId
        { txn with
            status := if status == "cancelled" then TxStatus.cancelled
                      else TxStatus.completed
            actualEndTime := some now
            duration := some (now - txn.startTime)
            updatedAt := now }) ∧
    ((stopChargingSession db now txId status).2).students = db.students := by
  have hbeq : (txn.status == TxStatus.inProgress) = false := by
    simpa using hterm
  unfold stopChargingSession completeTransaction
  rw [hfind]
  simp only [hbeq, Bool.and_false, Bool.false_eq_true, if_false]
  exact ⟨trivial, rfl⟩

/-- Counterexample to claim C4 as stated: stopping the already-completed
transaction 0 again does not fail — the call returns success — and the
stored record does change (its `duration` and timestamps are
recomputed). -/
theorem C4_counterexample :
    (stopChargingSession dbTerminalTxn 200 0 "completed").1 =
      StopResult.success 0
        { txnCompleted with
            actualEndTime := some 200
            duration := some 200
            updatedAt := 200 } ∧
    findTxn (stopChargingSession dbTerminalTxn 200 0 "completed").2 0 ≠
      some txnCompleted := by
  constructor
  · decide
  · decide

/-- Witness for the amended C4 on the concrete terminal store: applying
the theorem at transaction 0 of `dbTerminalTxn`. -/
theorem C4_second_stop_accepted_no_double_refund_witness :
    stopChargingSession dbTerminalTxn 200 0 "cancelled" =
      (StopResult.success 0
        { txnCompleted with
            status := if "cancelled" == "cancelled" then TxStatus.cancelled
                      else TxStatus.completed
            actualEndTime := some 200
            duration := some (200 - txnCompleted.startTime)
            updatedAt := 200 },
       writeTxn dbTerminalTxn 0
        { txnCompleted with
            status := if "cancelled" == "cancelled" then TxStatus.cancelled
                      else TxStatus.completed
            actualEndTime := some 200
            duration := some (200 - txnCompleted.startTime)
            updatedAt := 200 }) ∧
    ((stopChargingSession dbTerminalTxn 200 0 "cancelled").2).students =
      dbTerminalTxn.students :=
  C4_second_stop_accepted_no_double_refund dbTerminalTxn 200 0 "cancelled"
    txnCompleted (by decide) (by decide)

/-- Claim C5, behavior at the failing input: the field validation uses
JavaScript falsiness, so `pointsToSpend = 0` is rejected as a malformed
request with no state change, but `pointsToSpend = -1` passes the
validation, passes the balance check (`100 < -1` is false), creates an
in-progress session with `pointsUsed = -1`, and sets the stored balance
to `101` — the account is credited by a start request. -/
theorem C5_negative_points_accepted :
    startChargingSession dbOneStudent 0 0 "A" 0 "Universal Charger" 1 =
      (StartResult.missingFields, dbOneStudent) ∧
    (startChargingSession dbOneStudent 0 0 "A" (-1) "Universal Charger" 1).1 =
      StartResult.success 0 ∧
    ((startChargingSession dbOneStudent 0 0 "A" (-1) "Universal Charger" 1).2).students "A" =
      some { name := "Alice", email := "a@x.test", points := some 101,
             lastUsed := some 0 } ∧
    countInProgress
      (startChargingSession dbOneStudent 0 0 "A" (-1) "Universal Charger" 1).2 "A" = 1 := by
  refine ⟨rfl, ?_, ?_, ?_⟩
  · decide
  · decide
  · decide

/-- Counterexample to claim C6 as stated: a successful 1-point start
whose `Date.now()` request-time read is 0 but whose `Timestamp.now()`
record-creation read is 1 yields `expectedEndTime = 120` and
`startTime = 1`, so `expectedEndTime - startTime = 119 ≠ 1 * 120`. -/
theorem C6_counterexample :
    (startChargingSession dbOneStudent 0 1 "A" 1 "Universal Charger" 1).1 =
      StartResult.success 0 ∧
    findTxn (startChargingSession dbOneStudent 0 1 "A" 1 "Universal Charger" 1).2 0 =
      some txnClockSkew ∧
    txnClockSkew.expectedEndTime = some 120 ∧
    txnClockSkew.startTime = 1 ∧
    (120 : Int) - 1 ≠ 1 * 120 := by
  refine ⟨?_, ?_, ?_, ?_, ?_⟩ <;> decide

/-- Claim C6 (amended): a successful start for `p` points appends one
record with `expectedEndTime = tReq + p * 120` (computed from the
controller's request-time clock read `tReq`) and `startTime = tCreate`
(sampled later, at record creation), so `expectedEndTime - startTime =
p * 120 - (tCreate - tReq)`: it equals `p * 120` exactly when the two
clock reads coincide. -/
theorem C6_expected_end_time (db : DB) (tReq tCreate : Int) (rfid : String)
    (p : Int) (socketType : String) (socketNumber : Int) (stu : Student)
    (h1 : rfid ≠ "") (h2 : p ≠ 0) (h3 : socketType ≠ "") (h4 : socketNumber ≠ 0)
    (hstu : db.students rfid = some stu)
    (hact : getActiveTransaction db rfid = none)
    (hbal : ¬ pointsOrZero stu.points < p) :
    ∃ txn : Txn,
      ((startChargingSession db tReq tCreate rfid p socketType socketNumber).2).transactions =
        db.transactions ++ [(db.nextId, txn)] ∧
      txn.expectedEndTime = some (tReq + p * 120) ∧
      txn.startTime = tCreate ∧
      (tReq + p * 120) - tCreate = p * 120 - (tCreate - tReq) := by
  have hval : (rfid == "" || p == 0 || socketType == "" || socketNumber == 0) = false := by
    simp [h1, h2, h3, h4]
  unfold startChargingSession
  simp only [hval, Bool.false_eq_true, if_false, hstu, hact, Option.isSome_none,
    createTransaction]
  simp only [if_neg hbal]
  exact ⟨_, rfl, rfl, rfl, by ring⟩

/-- Witness for the amended C6 on `dbOneStudent` with `tReq = 0`,
`tCreate = 1`, `p = 1`. -/
theorem C6_expected_end_time_witness :
    ∃ txn : Txn,
      ((startChargingSession dbOneStudent 0 1 "A" 1 "Universal Charger" 1).2).transactions =
        dbOneStudent.transactions ++ [(dbOneStudent.nextId, txn)] ∧
      txn.expectedEndTime = some (0 + 1 * 120) ∧
      txn.startTime = 1 ∧
      ((0 : Int) + 1 * 120) - 1 = 1 * 120 - (1 - 0) :=
  C6_expected_end_time dbOneStudent 0 1 "A" 1 "Universal Charger" 1
    { name := "Alice", email := "a@x.test", points := some 100, lastUsed := none }
    (by decide) (by decide) (by decide) (by decide) (by decide) (by decide)
    (by decide)

/-- Claim C2, behavior at the failing schedule: `startChargingSession`
holds no lock, so between the `getActiveTransaction` check and the
`createTransaction` write of one request, a second request for the same
holder can run its own check (each `await` is a scheduling point).  In
the schedule check-A, check-B, commit-A, commit-B both checks see no
active session on the initial store (first conjunct), both commits then
succeed, the holder ends with two in-progress sessions, and the balance
is debited twice (100 → 90). -/
theorem C2_concurrent_double_start :
    getActiveTransaction dbOneStudent "A" = none ∧
    c2Step1.1 = StartResult.success 0 ∧
    c2Step2.1 = StartResult.success 1 ∧
    countInProgress c2Step2.2 "A" = 2 ∧
    (c2Step2.2).students "A" =
      some { name := "Alice", email := "a@x.test", points := some 90,
             lastUsed := some 0 } := by
  refine ⟨?_, ?_, ?_, ?_, ?_⟩ <;> decide

/-- Claim C10: both balance paths read a missing/null `points` field as
0 — a start for any positive amount against such an account fails the
`currentPoints < pointsToSpend` check with no state change, and the
refund credit writes `0 + refund`, i.e. exactly the refunded points, as
the new stored balance. -/
theorem C10_missing_points_reads_as_zero (p : Int) (hp : 0 < p) :
    (∀ (db : DB) (tReq tCreate : Int) (rfid : String) (stu : Student)
        (socketType : String) (socketNumber : Int),
      db.students rfid = some stu → stu.points = none →
      rfid ≠ "" → socketType ≠ "" → socketNumber ≠ 0 →
      getActiveTransaction db rfid = none →
      startChargingSession db tReq tCreate rfid p socketType socketNumber =
        (StartResult.insufficientPoints, db)) ∧
    (∀ (db : DB) (now : Int) (txId : TxnId) (txn : Txn) (stu : Student),
      findTxn db txId = some txn → txn.status = TxStatus.inProgress →
      db.students txn.rfid = some stu → stu.points = none →
      0 < refundPoints txn.pointsUsed (now - txn.startTime) →
      ∃ stu1,
        ((completeTransaction db now txId TxStatus.cancelled).2).students txn.rfid =
          some stu1 ∧
        stu1.points = some (refundPoints txn.pointsUsed (now - txn.startTime))) := by
  constructor
  · intro db tReq tCreate rfid stu socketType socketNumber hstu hpts h1 h3 h4 hact
    have h2 : p ≠ 0 := by omega
    have hval : (rfid == "" || p == 0 || socketType == "" || socketNumber == 0) = false := by
      simp [h1, h2, h3, h4]
    unfold startChargingSession
    simp only [hval, Bool.false_eq_true, if_false, hstu, hact, Option.isSome_none,
      createTransaction]
    rw [hpts]
    simp only [pointsOrZero]
    rw [if_pos hp]
  · intro db now txId txn stu hfind hstatus hstu hpts hrefund
    unfold completeTransaction
    rw [hfind]
    simp only [hstatus]
    have hguard : (TxStatus.cancelled == TxStatus.cancelled
        && TxStatus.inProgress == TxStatus.inProgress) = true := by decide
    rw [hguard]
    simp only [if_true, if_pos hrefund, hstu]
    refine ⟨{ stu with points := some (pointsOrZero stu.points +
        refundPoints txn.pointsUsed (now - txn.startTime)) }, ?_, ?_⟩
    · simp
    · simp [hpts, pointsOrZero]

/-- Witness for C10 at `p = 5`: the start path on a fresh no-points
student and the refund path on `dbNoPoints` (cancel at 100s, refund
`5 - ceil(100/120) = 4`). -/
theorem C10_missing_points_reads_as_zero_witness :
    (startChargingSession
        { students := fun r =>
            if r == "C" then
              some { name := "Cam", email := "c@x.test", points := none,
                     lastUsed := none }
            else none
          transactions := []
          nextId := 0 } 0 0 "C" 5 "Universal Charger" 1 =
      (StartResult.insufficientPoints,
        { students := fun r =>
            if r == "C" then
              some { name := "Cam", email := "c@x.test", points := none,
                     lastUsed := none }
            else none
          transactions := []
          nextId := 0 })) ∧
    (∃ stu1,
      ((completeTransaction dbNoPoints 100 0 TxStatus.cancelled).2).students "B" =
        some stu1 ∧
      stu1.points = some (refundPoints 5 (100 - 0))) :=
  ⟨(C10_missing_points_reads_as_zero 5 (by norm_num)).1 _ 0 0 "C"
      { name := "Cam", email := "c@x.test", points := none, lastUsed := none }
      "Universal Charger" 1 rfl rfl (by decide) (by decide) (by decide) rfl,
   (C10_missing_points_reads_as_zero 5 (by norm_num)).2 dbNoPoints 100 0
      { rfid := "B", studentName := "Bob", email := "b@x.test",
        pointsUsed := 5, socketType := "Universal Charger",
        socketNumber := 2, startTime := 0, expectedEndTime := some 600,
        actualEndTime := none, status := TxStatus.inProgress,
        remainingPoints := 0, duration := none, pointsRefunded := none,
        actualPointsUsed := none, createdAt := 0, updatedAt := 0 }
      { name := "Bob", email := "b@x.test", points := none, lastUsed := none }
      (by decide) rfl (by decide) rfl (by decide)⟩

/-- Claim C9: for a valid socket number, `turnOnSocket` and
`turnOffSocket` are idempotent — a second call leaves exactly the state
of the first — the handle is created lazily once and reused (the pin of
the stored handle is the mapped GPIO line or the pre-existing handle's
pin, and other sockets are untouched), and the SIGINT cleanup drives
every managed handle — in particular every previously-energized one —
to value 0. -/
theorem C9_relay_idempotent_and_cleanup (s : RelayState) (n g : Int)
    (hvalid : lineMap n = some g) :
    ((turnOnSocket s n).bind (fun s1 => turnOnSocket s1 n) = turnOnSocket s n) ∧
    ((turnOffSocket s n).bind (fun s1 => turnOffSocket s1 n) = turnOffSocket s n) ∧
    (∀ s1, turnOnSocket s n = some s1 →
      s1.instances n =
        some { pin := ((s.instances n).getD { pin := g, value := 0 }).pin,
               value := 1 } ∧
      ∀ m, m ≠ n → s1.instances m = s.instances m) ∧
    (∀ m gp, s.instances m = some gp →
      (sigintCleanup s).instances m = some { pin := gp.pin, value := 0 }) := by
  have hnn : (n == n) = true := by simp
  refine ⟨?_, ?_, ?_, ?_⟩
  · simp only [turnOnSocket, hvalid, Option.some_bind]
    congr 1
    congr 1
    funext m
    by_cases hm : (m == n) = true
    · simp [hm, hnn]
    · simp only [Bool.not_eq_true] at hm
      simp [hm]
  · simp only [turnOffSocket, hvalid, Option.some_bind]
    congr 1
    congr 1
    funext m
    by_cases hm : (m == n) = true
    · simp [hm, hnn]
    · simp only [Bool.not_eq_true] at hm
      simp [hm]
  · intro s1 h1
    simp only [turnOnSocket, hvalid, Option.some_inj] at h1
    subst h1
    constructor
    · simp [hnn]
    · intro m hm
      have hb : (m == n) = false := by simpa using hm
      simp [hb]
  · intro m gp hgp
    simp [sigintCleanup, hgp]

/-- Witness for C9 at socket 1 of `relayOneOn`. -/
theorem C9_relay_idempotent_and_cleanup_witness :
    ((turnOnSocket relayOneOn 1).bind (fun s1 => turnOnSocket s1 1) =
      turnOnSocket relayOneOn 1) ∧
    ((turnOffSocket relayOneOn 1).bind (fun s1 => turnOffSocket s1 1) =
      turnOffSocket relayOneOn 1) ∧
    (∀ s1, turnOnSocket relayOneOn 1 = some s1 →
      s1.instances 1 =
        some { pin := ((relayOneOn.instances 1).getD { pin := 73, value := 0 }).pin,
               value := 1 } ∧
      ∀ m, m ≠ 1 → s1.instances m = relayOneOn.instances m) ∧
    (∀ m gp, relayOneOn.instances m = some gp →
      (sigintCleanup relayOneOn).instances m = some { pin := gp.pin, value := 0 }) :=
  C9_relay_idempotent_and_cleanup relayOneOn 1 73 (by decide)

/-- Claim C8 (the relay wiring is modelled from the spec, see
`stopLeaseFlow`): whenever the stop endpoint succeeds and the stopped
session's socket number is a valid one, the flow ends with that
socket's handle written to 0, and every other socket's relay state is
unchanged; the store part of the flow is exactly the stop endpoint's
result. -/
theorem C8_stop_deenergizes_socket (db : DB) (relay : RelayState) (now : Int)
    (txId : TxnId) (status : String) (txId0 : TxnId) (txn : Txn) (db1 : DB)
    (g : Int)
    (hstop : stopChargingSession db now txId status =
      (StopResult.success txId0 txn, db1))
    (hvalid : lineMap txn.socketNumber = some g) :
    (stopLeaseFlow db relay now txId status).1 = StopResult.success txId0 txn ∧
    (stopLeaseFlow db relay now txId status).2.1 = db1 ∧
    ((stopLeaseFlow db relay now txId status).2.2).instances txn.socketNumber =
      some { pin := ((relay.instances txn.socketNumber).getD
               { pin := g, value := 0 }).pin, value := 0 } ∧
    (∀ m, m ≠ txn.socketNumber →
      ((stopLeaseFlow db relay now txId status).2.2).instances m =
        relay.instances m) := by
  unfold stopLeaseFlow
  rw [hstop]
  simp only [turnOffSocket, hvalid, Option.getD_some]
  have hnn : (txn.socketNumber == txn.socketNumber) = true := by simp
  refine ⟨trivial, trivial, ?_, ?_⟩
  · simp [hnn]
  · intro m hm
    have hb : (m == txn.socketNumber) = false := by simpa using hm
    simp [hb]

/-- Witness for C8: stopping the terminal transaction of
`dbTerminalTxn` (socket 1) with `relayOneOn` energized. -/
theorem C8_stop_deenergizes_socket_witness :
    (stopLeaseFlow dbTerminalTxn relayOneOn 200 0 "completed").1 =
      StopResult.success 0 txnStopped ∧
    (stopLeaseFlow dbTerminalTxn relayOneOn 200 0 "completed").2.1 =
      writeTxn dbTerminalTxn 0 txnStopped ∧
    ((stopLeaseFlow dbTerminalTxn relayOneOn 200 0 "completed").2.2).instances
        txnStopped.socketNumber =
      some { pin := ((relayOneOn.instances txnStopped.socketNumber).getD
               { pin := 73, value := 0 }).pin, value := 0 } ∧
    (∀ m, m ≠ txnStopped.socketNumber →
      ((stopLeaseFlow dbTerminalTxn relayOneOn 200 0 "completed").2.2).instances m =
        relayOneOn.instances m) :=
  C8_stop_deenergizes_socket dbTerminalTxn relayOneOn 200 0 "completed" 0
    txnStopped (writeTxn dbTerminalTxn 0 txnStopped) 73 rfl (by decide)
